import Mathlib

/-!
Verification development for the AccommodationsApp backend (Express + Prisma,
MySQL).  The definitions below are shallow embeddings of the route handlers in
`src/backend/routes/*.js`, `src/unnamed/part_000` (saved properties, reviews)
and the Prisma schema `src/backend/prisma/schema.prisma`.

Conventions used throughout:
* Database rows are records over `Nat` ids, `Int` prices/timestamps and
  `String` text columns; a table is a `List` of rows and each store is a
  structure of such lists.
* Roles are `String`s compared verbatim, as the source does.  A stored role
  is always one of the schema enum values `STUDENT`/`LANDLORD`/`ADMIN`
  (signup validates `isIn(['STUDENT','LANDLORD','ADMIN'])`, the column is a
  MySQL enum, and the Google OAuth path never creates a user because its
  `create` passes the unknown field `emailVerified` and the non-enum role
  value `student`).  The JWT is signed with `{ id, role: user.role }`, so the
  authenticated role equals the stored role.  The `authorizeRoles(...roles)`
  middleware does an exact `includes` check; several routes pass lower-case
  literals (`'landlord'`, `'student'`) that can never match a stored role,
  and those gates are modelled exactly as written.
* The Prisma client validates queries against the generated schema and the
  datasource before touching the database: a delegate (model accessor) that
  does not exist, a data field unknown to the model, a missing required
  field, a value outside an enum, or an argument the connector does not
  support (such as `mode: 'insensitive'` on MySQL) all make the call throw,
  which every handler catches and maps to a 500 response.  These client-side
  checks are modelled explicitly, with the names and values taken verbatim
  from the source and the schema.
* Handlers are pure functions `state → request → (HTTP status, state)`,
  with the middleware gate of the route included in front.
-/

namespace AccommodationsApp

/-- The values of `enum Role` in schema.prisma — the only strings a stored
`users.role` column (and hence a signed token's role claim) can hold. -/
def storedRole (r : String) : Bool :=
  r == "STUDENT" || r == "LANDLORD" || r == "ADMIN"

/-- The `authorizeRoles(...allowedRoles)` middleware predicate:
`allowedRoles.includes(req.user.role)`, an exact string comparison. -/
def authorizeRoles (allowed : List String) (role : String) : Bool :=
  allowed.contains role

/-- The body `authorizeRoles` sends with its 403 response. -/
def insufficientPermsMsg : String := "Forbidden: Insufficient permissions"

/-- The authenticated identity attached to a request by `authenticateToken`
(`req.user`), and also a stored user row: the JWT payload is signed at login
with `{ id: user.id, role: user.role }`, i.e. the stored role string. -/
structure AuthedUser where
  id : Nat
  role : String
deriving DecidableEq, Repr

/-- A `Property` row (schema.prisma `model Property`); columns not used by
any claim (description, coordinates, timestamps) are omitted. -/
structure Property where
  id : Nat
  landlordId : Nat
  title : String
  price : Int
  location : String
  roomType : String
deriving DecidableEq, Repr

/-- `prisma.property.findUnique({ where: { id } })`. -/
def propFind (props : List Property) (id : Nat) : Option Property :=
  props.find? (fun p => p.id == id)

/-! ### Case-insensitive substring matching

The semantics a `contains` filter has under the tables' case-insensitive
collation (`utf8mb4_unicode_ci` in the migration): lower-cased substring
containment.  Used by the spec-side predicate; the route's own query never
runs, because it adds `mode: 'insensitive'`, which the MySQL connector
rejects (see `condOk`). -/

def lowerChars (l : List Char) : List Char := l.map Char.toLower

def startsWithChars : List Char → List Char → Bool
  | [], _ => true
  | _ :: _, [] => false
  | a :: as, b :: bs => a == b && startsWithChars as bs

def charsContain : List Char → List Char → Bool
  | [], needle => needle.isEmpty
  | c :: rest, needle => startsWithChars needle (c :: rest) || charsContain rest needle

def ciContains (hay sub : String) : Bool :=
  charsContain (lowerChars hay.data) (lowerChars sub.data)

/-! ### GET /properties — search and filter (properties.js lines 17-39) -/

/-- Query parameters of `GET /properties` after express-validator: a numeric
filter that survives `.optional().isFloat()` is a non-empty string, hence
truthy in `minPrice && {...}`, so it is modelled as present-and-parsed;
`location`/`roomType` pass `.isString()` even when empty, and an empty string
is falsy in JS, which the definitions below reproduce. -/
structure SearchQuery where
  location : Option String
  minPrice : Option Int
  maxPrice : Option Int
  roomType : Option String
deriving DecidableEq, Repr

/-- One condition of the Prisma `where` object. -/
inductive Cond where
  | locContains (s : String)
  | priceGte (m : Int)
  | priceLte (m : Int)
  | roomEq (s : String)
deriving DecidableEq, Repr

/-- `enum RoomType` from schema.prisma; a `roomType` equality filter with any
other value is rejected by the client (the route maps this to 500). -/
def validRoomTypes : List String := ["SINGLE", "SHARED", "STUDIO"]

/-- `...(location && { location: { contains: location, mode: 'insensitive' } })`:
spread in only when the raw query string is truthy (present and non-empty). -/
def locConds (loc : Option String) : List Cond :=
  match loc with
  | some l => if l == "" then [] else [Cond.locContains l]
  | none => []

/-- `...(minPrice && { price: { gte: parseFloat(minPrice) } })`: a validated
float string is non-empty, hence truthy, so presence alone decides. -/
def minConds (minp : Option Int) : List Cond :=
  match minp with
  | some m => [Cond.priceGte m]
  | none => []

/-- `...(maxPrice && { price: { lte: parseFloat(maxPrice) } })`. -/
def maxConds (maxp : Option Int) : List Cond :=
  match maxp with
  | some m => [Cond.priceLte m]
  | none => []

/-- `...(roomType && { roomType })`. -/
def roomConds (room : Option String) : List Cond :=
  match room with
  | some s => if s == "" then [] else [Cond.roomEq s]
  | none => []

/-- The `where` object of `prisma.property.findMany` in `GET /properties`:
each filter is spread in only when the raw query value is truthy. -/
def buildWhere (q : SearchQuery) : List Cond :=
  locConds q.location ++ minConds q.minPrice ++ maxConds q.maxPrice ++ roomConds q.roomType

/-- Client-side validation of a condition.  The location condition carries
`mode: 'insensitive'`, an argument the Prisma client only supports on
PostgreSQL/MongoDB; on the MySQL datasource of schema.prisma it is an
unknown `StringFilter` argument and the query throws before reaching the
database, so a `locContains` condition never validates.  An enum equality
must also name a legal member. -/
def condOk : Cond → Bool
  | .locContains _ => false
  | .roomEq s => validRoomTypes.contains s
  | _ => true

/-- Whether a row satisfies one condition (the semantics the condition would
have on the collation, used by validated conditions). -/
def rowMatches (p : Property) : Cond → Bool
  | .locContains l => ciContains p.location l
  | .priceGte m => decide (m ≤ p.price)
  | .priceLte m => decide (p.price ≤ m)
  | .roomEq s => p.roomType == s

/-- `GET /properties`: run the conjunctive `where` filter over the table, or
answer 500 when the client rejects the query. -/
def searchProperties (props : List Property) (q : SearchQuery) : Except Nat (List Property) :=
  let w := buildWhere q
  if w.all condOk then Except.ok (props.filter (fun p => w.all (rowMatches p)))
  else Except.error 500

/-- Spec-side location predicate: case-insensitive substring when the filter
is supplied, no constraint otherwise. -/
def specLocOk (loc : Option String) (p : Property) : Bool :=
  match loc with
  | none => true
  | some l => ciContains p.location l

/-- Spec-side minimum-price predicate. -/
def specMinOk (minp : Option Int) (p : Property) : Bool :=
  match minp with
  | none => true
  | some m => decide (m ≤ p.price)

/-- Spec-side maximum-price predicate. -/
def specMaxOk (maxp : Option Int) (p : Property) : Bool :=
  match maxp with
  | none => true
  | some m => decide (p.price ≤ m)

/-- Spec-side room-type predicate. -/
def specRoomOk (room : Option String) (p : Property) : Bool :=
  match room with
  | none => true
  | some s => p.roomType == s

/-- Spec-side predicate, phrased from the claim: a property satisfies every
filter that is supplied, and an unsupplied filter imposes no constraint. -/
def specSatisfies (q : SearchQuery) (p : Property) : Bool :=
  specLocOk q.location p && specMinOk q.minPrice p &&
  specMaxOk q.maxPrice p && specRoomOk q.roomType p

/-- The query with no filter supplied. -/
def emptyQuery : SearchQuery := ⟨none, none, none, none⟩

/-- JS falsiness of the raw location query value: absent or empty. -/
def locFalsy (loc : Option String) : Bool :=
  match loc with
  | none => true
  | some l => l == ""

/-- A supplied room-type filter names one of the schema's room types. -/
def wfRoom (room : Option String) : Bool :=
  match room with
  | none => true
  | some s => validRoomTypes.contains s

/-- A query is well formed when its room-type filter, if supplied, names one
of the schema's room types. -/
def wellFormedQuery (q : SearchQuery) : Bool :=
  wfRoom q.roomType

/-! ### Listing store: availability calendar and property mutation
(properties.js lines 91-127 and 166-196) -/

/-- An `Availability` row; `@@unique([propertyId, date])` in the schema. -/
structure AvailRow where
  propertyId : Nat
  date : Int
  isAvailable : Bool
deriving DecidableEq, Repr

/-- One element of the JSON array body of `PUT /properties/:id/availability`
(`{ date, isAvailable }`, the date already parsed). -/
structure AvailInput where
  date : Int
  isAvailable : Bool
deriving DecidableEq, Repr

/-- The listing store: `properties` and `availability` tables.  Other child
tables of `Property` (media, reviews, requests) live in their own stores
below; no claim relates them to these handlers. -/
structure ListingState where
  props : List Property
  availability : List AvailRow
deriving DecidableEq, Repr

/-- The key `(propertyId, date)` of `r` is absent from `rows`. -/
def availKeyFree (rows : List AvailRow) (r : AvailRow) : Bool :=
  rows.all (fun x => !(x.propertyId == r.propertyId && x.date == r.date))

/-- All inserted keys are fresh with respect to `existing` and pairwise
distinct among themselves. -/
def availInsertOk (existing : List AvailRow) : List AvailRow → Bool
  | [] => true
  | r :: rest => availKeyFree existing r && availKeyFree rest r && availInsertOk existing rest

/-- `prisma.availability.createMany`: a single multi-row INSERT, so either
every row goes in or (on a unique-key violation) none does. -/
def availCreateMany (existing rows : List AvailRow) : Option (List AvailRow) :=
  if availInsertOk existing rows then some (existing ++ rows) else none

/-- `PUT /properties/:id/availability`: gated by `authorizeRoles('landlord')`
— a lower-case literal no stored role equals, so the middleware answers 403
for every caller.  The handler behind the gate (ownership check, then
`deleteMany` followed by `createMany` with no transaction) is translated
faithfully but is unreachable for stored-role callers. -/
def putAvailability (st : ListingState) (caller : AuthedUser) (id : Nat)
    (entries : List AvailInput) : Nat × ListingState :=
  if !(authorizeRoles ["landlord"] caller.role) then (403, st)
  else match propFind st.props id with
  | none => (403, st)
  | some p =>
    if p.landlordId != caller.id then (403, st)
    else
      let remaining := st.availability.filter (fun r => !(r.propertyId == id))
      let rows := entries.map (fun e => AvailRow.mk id e.date e.isAvailable)
      match availCreateMany remaining rows with
      | some av => (200, { st with availability := av })
      | none => (500, { st with availability := remaining })

/-- The PUT body (`data: req.body`) as an optional-field patch; only the
columns modelled here matter to the claims. -/
structure PropPatch where
  title : Option String
  price : Option Int
  location : Option String
  roomType : Option String
deriving DecidableEq, Repr

def applyPatch (p : Property) (patch : PropPatch) : Property :=
  { p with
    title := patch.title.getD p.title
    price := patch.price.getD p.price
    location := patch.location.getD p.location
    roomType := patch.roomType.getD p.roomType }

/-- The one error body `PUT /properties/:id` (and the unreachable delete
handler) sends with status 403, for a missing property and for a non-owned
one alike. -/
def forbiddenMsg : String := "Unauthorized or property not found"

/-- `PUT /properties/:id`: gated by `authorizeRoles('LANDLORD')` — upper
case, so it matches the stored landlord role and the handler runs: ownership
check (403 with `forbiddenMsg` for a missing or non-owned property alike),
then the update. -/
def updateProperty (st : ListingState) (caller : AuthedUser) (id : Nat)
    (patch : PropPatch) : (Nat × String) × ListingState :=
  if !(authorizeRoles ["LANDLORD"] caller.role) then ((403, insufficientPermsMsg), st)
  else match propFind st.props id with
  | none => ((403, forbiddenMsg), st)
  | some p =>
    if p.landlordId != caller.id then ((403, forbiddenMsg), st)
    else ((200, "updated"),
      { st with props := st.props.map (fun x => if x.id == id then applyPatch x patch else x) })

/-- `DELETE /properties/:id`: gated by `authorizeRoles('landlord')` — lower
case, which no stored role equals, so the middleware answers 403 with
`insufficientPermsMsg` for every caller and the handler behind it (ownership
check, then `prisma.property.delete`, which would hit the missing-cascade
foreign key under dependent availability rows) is dead code, translated
faithfully. -/
def deleteProperty (st : ListingState) (caller : AuthedUser) (id : Nat) :
    (Nat × String) × ListingState :=
  if !(authorizeRoles ["landlord"] caller.role) then ((403, insufficientPermsMsg), st)
  else match propFind st.props id with
  | none => ((403, forbiddenMsg), st)
  | some p =>
    if p.landlordId != caller.id then ((403, forbiddenMsg), st)
    else if st.availability.any (fun r => r.propertyId == id) then
      ((500, "Failed to delete property"), st)
    else ((200, "Property deleted"), { st with props := st.props.filter (fun x => !(x.id == id)) })

/-! ### Conversation store (messages.js) -/

/-- A `Conversation` row; `@@unique([studentId, landlordId])`. -/
structure Conv where
  id : Nat
  studentId : Nat
  landlordId : Nat
  updatedAt : Int
deriving DecidableEq, Repr

/-- A `Message` row (all required columns of `model Message`). -/
structure Msg where
  id : Nat
  conversationId : Nat
  senderId : Nat
  receiverId : Nat
  content : String
  createdAt : Int
deriving DecidableEq, Repr

/-- The chat store, with the user table the recipient lookup reads. -/
structure ChatState where
  users : List AuthedUser
  convs : List Conv
  msgs : List Msg
  nextConvId : Nat
  nextMsgId : Nat
deriving DecidableEq, Repr

/-- `prisma.user.findUnique({ where: { id: recipientId } })`. -/
def userFind (st : ChatState) (id : Nat) : Option AuthedUser :=
  st.users.find? (fun u => u.id == id)

/-- Lookup on the unique pair `studentId_landlordId`. -/
def convFind (convs : List Conv) (sid lid : Nat) : Option Conv :=
  convs.find? (fun c => c.studentId == sid && c.landlordId == lid)

/-- The role-pairing step of `POST /messages`, verbatim:
`req.user.role === 'student' && recipient.role === 'landlord'` and the
mirror case.  The literals are lower case while every stored role is one of
the upper-case enum values, so for real identities both comparisons are
false and the result is `none`. -/
def rolePair (sender recip : AuthedUser) : Option (Nat × Nat) :=
  if sender.role == "student" && recip.role == "landlord" then
    some (sender.id, recip.id)
  else if sender.role == "landlord" && recip.role == "student" then
    some (recip.id, sender.id)
  else none

/-- Required columns of `model Message` (no defaults): the client refuses a
`create` whose data lacks any of them. -/
def messageModelRequiredFields : List String :=
  ["conversationId", "senderId", "receiverId", "content"]

/-- The fields the route passes to `prisma.message.create`
(messages.js line 110: `{ conversationId, senderId, content }`). -/
def messageCreateDataFields : List String :=
  ["conversationId", "senderId", "content"]

/-- Whether the route's message-create data satisfies the model's required
columns (`receiverId` is missing, so it does not). -/
def messageCreateOk : Bool :=
  messageModelRequiredFields.all (fun f => messageCreateDataFields.contains f)

/-- `POST /messages` (no role middleware, only `authenticateToken`):
falsy-guard on body, recipient lookup, role pairing, then conversation
upsert keyed on the unique pair and `message.create`.  Because `rolePair`
never matches a stored role, every request from a real identity is answered
400 at the pairing step; the upsert and the create behind it (including the
create's missing required `receiverId`) are translated faithfully but are
dead code for stored-role callers. -/
def sendMessage (st : ChatState) (caller : AuthedUser) (recipientId : Nat)
    (content : String) (now : Int) : Nat × ChatState :=
  if recipientId == 0 || content == "" then (400, st)
  else match userFind st recipientId with
  | none => (400, st)
  | some recip =>
    if recip.id == caller.id then (400, st)
    else match rolePair caller recip with
    | none => (400, st)
    | some (sid, lid) =>
      match convFind st.convs sid lid with
      | some c =>
        if messageCreateOk then
          (201, { st with
                  msgs := st.msgs ++ [⟨st.nextMsgId, c.id, caller.id, recip.id, content, now⟩]
                  nextMsgId := st.nextMsgId + 1 })
        else (500, st)
      | none =>
        let c : Conv := ⟨st.nextConvId, sid, lid, now⟩
        let st1 : ChatState :=
          { st with convs := st.convs ++ [c], nextConvId := st.nextConvId + 1 }
        if messageCreateOk then
          (201, { st1 with
                  msgs := st1.msgs ++ [⟨st1.nextMsgId, c.id, caller.id, recip.id, content, now⟩]
                  nextMsgId := st1.nextMsgId + 1 })
        else (500, st1)

/-! ### Conversation and message retrieval (messages.js lines 12-67) -/

/-- A conversation as returned by `GET /conversations`: the row plus the
`take: 1` latest-message preview. -/
structure ConvView where
  conv : Conv
  preview : List Msg
deriving DecidableEq, Repr

/-- Ascending creation time (`orderBy: { createdAt: 'asc' }`). -/
def msgLe (a b : Msg) : Prop := a.createdAt ≤ b.createdAt

/-- Descending creation time (`orderBy: { createdAt: 'desc' }`). -/
def msgGe (a b : Msg) : Prop := b.createdAt ≤ a.createdAt

/-- Descending last activity (`orderBy: { updatedAt: 'desc' }`). -/
def convGe (a b : Conv) : Prop := b.updatedAt ≤ a.updatedAt

instance : DecidableRel msgLe := fun a b => Int.decLe a.createdAt b.createdAt

instance : DecidableRel msgGe := fun a b => Int.decLe b.createdAt a.createdAt

instance : DecidableRel convGe := fun a b => Int.decLe b.updatedAt a.updatedAt

instance : IsTotal Msg msgLe := ⟨fun a b => Int.le_total a.createdAt b.createdAt⟩

instance : IsTrans Msg msgLe := ⟨fun _ _ _ hab hbc => le_trans hab hbc⟩

instance : IsTotal Msg msgGe := ⟨fun a b => Int.le_total b.createdAt a.createdAt⟩

instance : IsTrans Msg msgGe := ⟨fun _ _ _ hab hbc => le_trans hbc hab⟩

instance : IsTotal Conv convGe := ⟨fun a b => Int.le_total b.updatedAt a.updatedAt⟩

instance : IsTrans Conv convGe := ⟨fun _ _ _ hab hbc => le_trans hbc hab⟩

/-- `GET /messages?conversationId=` (no role middleware): falsy-guard on the
id, participant check, then the conversation's messages ordered by ascending
creation time (`findMany` with an `orderBy` is modelled as a sort of the
filtered table). -/
def getMessages (st : ChatState) (uid : Nat) (conversationId : Nat) : Except Nat (List Msg) :=
  if conversationId == 0 then Except.error 400
  else match st.convs.find? (fun c => c.id == conversationId) with
  | none => Except.error 403
  | some c =>
    if !(c.studentId == uid) && !(c.landlordId == uid) then Except.error 403
    else Except.ok
      (List.insertionSort msgLe (st.msgs.filter (fun m => m.conversationId == conversationId)))

/-- `GET /conversations` (no role middleware): the requester's conversations
ordered by descending `updatedAt`, each with the single latest message as
preview (`messages: { orderBy: { createdAt: 'desc' }, take: 1 }`). -/
def getConversations (st : ChatState) (uid : Nat) : List ConvView :=
  (List.insertionSort convGe
      (st.convs.filter (fun c => c.studentId == uid || c.landlordId == uid))).map
    (fun c =>
      ⟨c, (List.insertionSort msgGe (st.msgs.filter (fun m => m.conversationId == c.id))).take 1⟩)

/-! ### Saved properties (part_000 lines 35-68) -/

/-- A `SavedProperty` row per the schema: `studentId`, `propertyId`,
`@@unique([studentId, propertyId])`. -/
structure SavedRow where
  studentId : Nat
  propertyId : Nat
deriving DecidableEq, Repr

structure SavedState where
  props : List Property
  saved : List SavedRow
deriving DecidableEq, Repr

/-- The model delegates the generated Prisma client exposes, one per model in
schema.prisma (camel-cased model name). -/
def prismaModelDelegates : List String :=
  ["user", "property", "availability", "propertyMedia", "conversation", "message",
   "viewingRequest", "review", "savedProperty", "adminFlag"]

/-- The delegate name the saved-properties route dereferences
(`prisma.savedProperties`): not among the generated delegates, so the access
yields `undefined` and the call would throw before reaching the database. -/
def savedRouteDelegate : String := "savedProperties"

/-- `POST /saved-properties/:propertyId`: gated by `authorizeRoles('student')`
— lower case, which no stored role equals, so the middleware answers 403 for
every caller.  The handler behind the gate (existence check, then duplicate
check and insert through the nonexistent `savedProperties` delegate, which
would throw → 500) is translated faithfully but is unreachable for
stored-role callers. -/
def savePropertyPost (st : SavedState) (caller : AuthedUser) (propertyId : Nat) :
    Nat × SavedState :=
  if !(authorizeRoles ["student"] caller.role) then (403, st)
  else match propFind st.props propertyId with
  | none => (404, st)
  | some _ =>
    if prismaModelDelegates.contains savedRouteDelegate then
      match st.saved.find? (fun r => r.studentId == caller.id && r.propertyId == propertyId) with
      | some _ => (409, st)
      | none => (201, { st with saved := st.saved ++ [⟨caller.id, propertyId⟩] })
    else (500, st)

/-! ### Reviews (part_000 lines 217-266) -/

/-- A `Review` row per the schema — note: no `landlordId` column. -/
structure ReviewRow where
  id : Nat
  studentId : Nat
  propertyId : Nat
  rating : Nat
  comment : Option String
deriving DecidableEq, Repr

structure ReviewState where
  props : List Property
  reviews : List ReviewRow
  nextReviewId : Nat
deriving DecidableEq, Repr

/-- Columns of `model Review` in schema.prisma. -/
def reviewModelFields : List String :=
  ["id", "studentId", "propertyId", "rating", "comment", "createdAt", "updatedAt"]

/-- The data fields `POST /reviews` passes to `prisma.review.create`
(`{ propertyId, landlordId, studentId, rating, comment }`). -/
def reviewCreateDataFields : List String :=
  ["propertyId", "landlordId", "studentId", "rating", "comment"]

/-- Whether every create-data field exists on the model (it does not:
`landlordId` is unknown to `model Review`, so the client would throw). -/
def reviewCreateOk : Bool :=
  reviewCreateDataFields.all (fun f => reviewModelFields.contains f)

/-- `POST /reviews`: gated by `authorizeRoles('student')` — lower case, which
no stored role equals, so the middleware answers 403 for every caller.  The
handler behind the gate (rating validation, property existence, self-review
check, duplicate check, then the create the client rejects for the unknown
`landlordId` field) is translated faithfully but is unreachable for
stored-role callers. -/
def createReview (st : ReviewState) (caller : AuthedUser) (propertyId _landlordId : Nat)
    (rating : Nat) (comment : Option String) : Nat × ReviewState :=
  if !(authorizeRoles ["student"] caller.role) then (403, st)
  else if rating < 1 || 5 < rating then (400, st)
  else match propFind st.props propertyId with
  | none => (404, st)
  | some p =>
    if p.landlordId == caller.id then (403, st)
    else if st.reviews.any (fun r => r.studentId == caller.id && r.propertyId == propertyId) then
      (409, st)
    else if reviewCreateOk then
      (201, { st with
              reviews := st.reviews ++ [⟨st.nextReviewId, caller.id, propertyId, rating, comment⟩]
              nextReviewId := st.nextReviewId + 1 })
    else (500, st)

/-! ### Viewing requests (requests.js lines 175-202) -/

/-- `enum ViewingStatus { PENDING APPROVED REJECTED }`. -/
inductive ViewingStatus where
  | pending
  | approved
  | rejected
deriving DecidableEq, Repr

/-- A `ViewingRequest` row (columns the transition handler touches). -/
structure VReq where
  id : Nat
  studentId : Nat
  propertyId : Nat
  status : ViewingStatus
deriving DecidableEq, Repr

structure VReqState where
  props : List Property
  reqs : List VReq
deriving DecidableEq, Repr

/-- The strings the client accepts for a `ViewingStatus` column; everything
else (in particular the route's `'confirmed'`/`'declined'`) is rejected. -/
def parseViewingStatus : String → Option ViewingStatus
  | "PENDING" => some ViewingStatus.pending
  | "APPROVED" => some ViewingStatus.approved
  | "REJECTED" => some ViewingStatus.rejected
  | _ => none

/-- `PUT /viewing-requests/:id`: gated by `authorizeRoles('landlord')` —
lower case, which no stored role equals, so the middleware answers 403 for
every caller.  The handler behind the gate (body validation
`isIn(['confirmed', 'declined'])`, request lookup, ownership check, then the
status update whose value the enum column rejects → 500) is translated
faithfully but is unreachable for stored-role callers. -/
def putViewingRequest (st : VReqState) (caller : AuthedUser) (requestId : Nat)
    (status : String) : Nat × VReqState :=
  if !(authorizeRoles ["landlord"] caller.role) then (403, st)
  else if !(["confirmed", "declined"].contains status) then (400, st)
  else match st.reqs.find? (fun r => r.id == requestId) with
  | none => (404, st)
  | some r =>
    match propFind st.props r.propertyId with
    | none => (500, st)
    | some p =>
      if p.landlordId != caller.id then (403, st)
      else match parseViewingStatus status with
      | some s =>
        (200, { st with reqs := st.reqs.map (fun x => if x.id == requestId then { x with status := s } else x) })
      | none => (500, st)

/-! ### Concrete stores used by the claim theorems, and the C10 claim
statement -/

/-- A list of two properties used by the search theorems. -/
def propsW : List Property :=
  [⟨1, 10, "A", 100, "Kigali City", "SINGLE"⟩, ⟨2, 10, "B", 50, "Huye", "SHARED"⟩]

/-- A property with an existing one-entry calendar. -/
def stC1 : ListingState :=
  ⟨[⟨1, 10, "Flat", 100, "Kigali", "SINGLE"⟩], [⟨1, 5, true⟩]⟩

/-- A replacement set with two entries on the same date (it would violate
`@@unique([propertyId, date])` if the insert were ever reached). -/
def entriesC1 : List AvailInput := [⟨7, true⟩, ⟨7, false⟩]

/-- Concrete chat store: one stored student (id 1) and one stored landlord
(id 2), no conversations yet. -/
def stChatW : ChatState := ⟨[⟨1, "STUDENT"⟩, ⟨2, "LANDLORD"⟩], [], [], 1, 1⟩

/-- Chat store with one conversation (id 7) holding two messages. -/
def stMsgW : ChatState :=
  ⟨[⟨1, "STUDENT"⟩, ⟨2, "LANDLORD"⟩], [⟨7, 1, 2, 50⟩],
   [⟨1, 7, 1, 2, "a", 10⟩, ⟨2, 7, 2, 1, "b", 20⟩], 8, 3⟩

/-- The result `GET /messages` returns on `stMsgW` for conversation 7. -/
def resMsgW : List Msg := [⟨1, 7, 1, 2, "a", 10⟩, ⟨2, 7, 2, 1, "b", 20⟩]

/-- The one entry of `GET /conversations` on `stMsgW` for user 1. -/
def viewMsgW : ConvView := ⟨⟨7, 1, 2, 50⟩, [⟨2, 7, 2, 1, "b", 20⟩]⟩

/-- Store with one property (id 1, owner 10) and no saved rows. -/
def stC5 : SavedState := ⟨[⟨1, 10, "Flat", 100, "Kigali", "SINGLE"⟩], []⟩

/-- Review store whose one property (id 1) is owned by landlord 5. -/
def stRevW : ReviewState := ⟨[⟨1, 5, "Flat", 100, "Kigali", "SINGLE"⟩], [], 1⟩

/-- The universally quantified half of claim C10: any accepted review is
stored for the authenticated student with the validated rating. -/
def C10AcceptedWellFormed : Prop :=
  ∀ (st : ReviewState) (caller : AuthedUser) (propertyId landlordId rating : Nat)
    (comment : Option String),
    (createReview st caller propertyId landlordId rating comment).1 = 201 →
    ∃ r, (createReview st caller propertyId landlordId rating comment).2.reviews
           = st.reviews ++ [r] ∧ r.studentId = caller.id ∧ r.rating = rating

/-- The existential half of claim C10: some request whose body `landlordId`
differs from the target property's stored owner is accepted (201). -/
def C10AcceptsForeignLandlord : Prop :=
  ∃ (st : ReviewState) (caller : AuthedUser) (propertyId landlordId rating : Nat)
    (comment : Option String) (p : Property),
    propFind st.props propertyId = some p ∧ landlordId ≠ p.landlordId ∧
    (createReview st caller propertyId landlordId rating comment).1 = 201

/-- Claim C10 as stated. -/
def C10Claim : Prop := C10AcceptedWellFormed ∧ C10AcceptsForeignLandlord

/-- Store with property 1 owned by landlord 10 and one pending viewing
request (id 5). -/
def stC8 : VReqState :=
  ⟨[⟨1, 10, "Flat", 100, "Kigali", "SINGLE"⟩], [⟨5, 2, 1, ViewingStatus.pending⟩]⟩

/-! ## Helper lemmas -/

theorem charsContain_nil (h : List Char) : charsContain h [] = true := by
  cases h with
  | nil => rfl
  | cons c rest => simp [charsContain, startsWithChars]

theorem ciContains_empty (s : String) : ciContains s "" = true := by
  unfold ciContains
  exact charsContain_nil _

theorem storedRole_cases (r : String) (h : storedRole r = true) :
    r = "STUDENT" ∨ r = "LANDLORD" ∨ r = "ADMIN" := by
  have h' := h
  simp only [storedRole, Bool.or_eq_true, beq_iff_eq] at h'
  rcases h' with (h1 | h2) | h3
  · exact Or.inl h1
  · exact Or.inr (Or.inl h2)
  · exact Or.inr (Or.inr h3)

/-- `authorizeRoles('landlord')` matches no stored role. -/
theorem stored_gate_landlord (r : String) (h : storedRole r = true) :
    authorizeRoles ["landlord"] r = false := by
  rcases storedRole_cases r h with rfl | rfl | rfl <;> decide

/-- `authorizeRoles('student')` matches no stored role. -/
theorem stored_gate_student (r : String) (h : storedRole r = true) :
    authorizeRoles ["student"] r = false := by
  rcases storedRole_cases r h with rfl | rfl | rfl <;> decide

/-- No stored role equals the lower-case literals of the chat route. -/
theorem stored_not_chat_literals (r : String) (h : storedRole r = true) :
    (r == "student") = false ∧ (r == "landlord") = false := by
  rcases storedRole_cases r h with rfl | rfl | rfl <;> exact ⟨by decide, by decide⟩

/-- For a sender with a stored role, the role pairing of `POST /messages`
never matches (both lower-case comparisons are false). -/
theorem rolePair_stored_none (sender recip : AuthedUser)
    (h : storedRole sender.role = true) : rolePair sender recip = none := by
  obtain ⟨h1, h2⟩ := stored_not_chat_literals sender.role h
  unfold rolePair
  simp [h1, h2]

/-- `POST /messages` answers 400 with the store untouched for every caller
whose role is a stored role: the early body/recipient guards answer 400, and
so does the role-pairing step, before any conversation or message write. -/
theorem sendMessage_stored_400 (st : ChatState) (caller : AuthedUser)
    (recipientId : Nat) (content : String) (now : Int)
    (h : storedRole caller.role = true) :
    sendMessage st caller recipientId content now = (400, st) := by
  unfold sendMessage
  split
  · rfl
  · split
    · rfl
    · next recip heq =>
      split
      · rfl
      · simp [rolePair_stored_none caller recip h]

/-- `POST /reviews` answers 403 with the store untouched for every caller
whose role is a stored role: `authorizeRoles('student')` rejects first. -/
theorem createReview_stored_403 (st : ReviewState) (caller : AuthedUser)
    (propertyId landlordId rating : Nat) (comment : Option String)
    (h : storedRole caller.role = true) :
    createReview st caller propertyId landlordId rating comment = (403, st) := by
  have hgate := stored_gate_student caller.role h
  unfold createReview
  simp [hgate]

/-- `POST /reviews` never answers 201 and never changes the store, for any
caller: a stored-role caller is stopped by the role gate, and a caller that
passed it would still be stopped at the insert, whose data carries the
`landlordId` field unknown to `model Review`. -/
theorem createReview_rejects (st : ReviewState) (caller : AuthedUser)
    (propertyId landlordId rating : Nat) (comment : Option String) :
    (createReview st caller propertyId landlordId rating comment).1 ≠ 201 ∧
    (createReview st caller propertyId landlordId rating comment).2 = st := by
  unfold createReview
  simp only [show reviewCreateOk = false from rfl, Bool.false_eq_true, if_false]
  split
  · exact ⟨by simp, rfl⟩
  · split
    · exact ⟨by simp, rfl⟩
    · split
      · exact ⟨by simp, rfl⟩
      · split
        · exact ⟨by simp, rfl⟩
        · split
          · exact ⟨by simp, rfl⟩
          · exact ⟨by simp, rfl⟩

theorem locConds_all_eq (p : Property) (loc : Option String) :
    (locConds loc).all (rowMatches p) = specLocOk loc p := by
  cases loc with
  | none => rfl
  | some l =>
    by_cases h : l = ""
    · subst h
      simp [locConds, specLocOk, ciContains_empty]
    · simp [locConds, specLocOk, rowMatches, h]

theorem minConds_all_eq (p : Property) (minp : Option Int) :
    (minConds minp).all (rowMatches p) = specMinOk minp p := by
  cases minp with
  | none => rfl
  | some m => simp [minConds, specMinOk, rowMatches]

theorem maxConds_all_eq (p : Property) (maxp : Option Int) :
    (maxConds maxp).all (rowMatches p) = specMaxOk maxp p := by
  cases maxp with
  | none => rfl
  | some m => simp [maxConds, specMaxOk, rowMatches]

theorem roomConds_all_eq (p : Property) (room : Option String)
    (h : wfRoom room = true) :
    (roomConds room).all (rowMatches p) = specRoomOk room p := by
  cases room with
  | none => rfl
  | some s =>
    have hne : s ≠ "" := by
      simp only [wfRoom, validRoomTypes] at h
      rcases (by simpa using h : s = "SINGLE" ∨ s = "SHARED" ∨ s = "STUDIO") with rfl | rfl | rfl <;>
        decide
    simp [roomConds, specRoomOk, rowMatches, hne]

theorem buildWhere_matches (q : SearchQuery) (hq : wellFormedQuery q = true) (p : Property) :
    (buildWhere q).all (rowMatches p) = specSatisfies q p := by
  unfold buildWhere specSatisfies
  simp only [List.all_append]
  rw [locConds_all_eq, minConds_all_eq, maxConds_all_eq,
    roomConds_all_eq p q.roomType hq]

/-- With a falsy location value and a legal room type, every condition of the
built `where` object validates (no `locContains` condition is present). -/
theorem buildWhere_condOk (q : SearchQuery) (hloc : locFalsy q.location = true)
    (hq : wellFormedQuery q = true) :
    (buildWhere q).all condOk = true := by
  unfold buildWhere
  simp only [List.all_append, Bool.and_eq_true]
  refine ⟨⟨⟨?_, ?_⟩, ?_⟩, ?_⟩
  · cases hl : q.location with
    | none => rfl
    | some l =>
      rw [hl] at hloc
      have hempty : (l == "") = true := by simpa [locFalsy] using hloc
      simp [locConds, hempty]
  · cases hm : q.minPrice with
    | none => rfl
    | some m => simp [minConds, condOk]
  · cases hm : q.maxPrice with
    | none => rfl
    | some m => simp [maxConds, condOk]
  · have h : wfRoom q.roomType = true := hq
    cases hr : q.roomType with
    | none => rfl
    | some s =>
      rw [hr] at h
      simp only [roomConds]
      split
      · rfl
      · simpa [condOk, wfRoom] using h

/-- With a truthy location value, the built `where` object fails client-side
validation: the `locContains` condition carries `mode: 'insensitive'`, which
the MySQL connector rejects. -/
theorem buildWhere_condOk_false (q : SearchQuery) (l : String)
    (hl : q.location = some l) (hne : (l == "") = false) :
    (buildWhere q).all condOk = false := by
  unfold buildWhere
  rw [hl]
  simp [locConds, hne, condOk, List.all_append]

/-! ## Claims -/

/-! ### C3: search filters -/

/-- Counterexample to C3 as stated: a search with a supplied location filter
answers 500 — the route adds `mode: 'insensitive'` to the `contains` filter,
an argument the Prisma client rejects on the MySQL datasource — instead of
the filtered property list the claim promises. -/
theorem c3_counterexample :
    searchProperties propsW ⟨some "kigali", some 0, none, none⟩ = Except.error 500 ∧
    Except.error 500 ≠
      Except.ok (propsW.filter (specSatisfies ⟨some "kigali", some 0, none, none⟩)) :=
  ⟨rfl, by simp⟩

/-- Claim C3, amended: min price, max price and room type are conjunctive and
each is applied exactly when supplied (a supplied numeric filter with value 0
is still applied, because the raw query string "0" is truthy); an unsupplied
filter imposes no constraint and the empty filter set returns every property.
A supplied (truthy) location filter, however, never filters: the query
carries `mode: 'insensitive'`, which the client rejects on MySQL, so every
location-filtered search answers 500. -/
theorem c3_search_conjunctive_filters (props : List Property) (q : SearchQuery) :
    (∀ l, q.location = some l → (l == "") = false →
      searchProperties props q = Except.error 500) ∧
    (locFalsy q.location = true → wellFormedQuery q = true →
      searchProperties props q = Except.ok (props.filter (specSatisfies q))) ∧
    searchProperties props emptyQuery = Except.ok props := by
  refine ⟨?_, ?_, ?_⟩
  · intro l hl hne
    simp only [searchProperties]
    split
    · next hw =>
      rw [buildWhere_condOk_false q l hl hne] at hw
      exact absurd hw (by decide)
    · rfl
  · intro hloc hq
    simp only [searchProperties]
    split
    · exact congrArg Except.ok (List.filter_congr (fun p _ => buildWhere_matches q hq p))
    · next hw => exact absurd (buildWhere_condOk q hloc hq) hw
  · have h1 : buildWhere emptyQuery = [] := rfl
    simp [searchProperties, h1]

/-- Witness for C3 (amended) at a concrete store: a location-filtered search
answers 500; a search by minimum price 0, maximum price and room type
returns exactly the matching property. -/
theorem c3_search_conjunctive_filters_witness :
    searchProperties propsW ⟨some "kigali", none, none, none⟩ = Except.error 500 ∧
    searchProperties propsW ⟨none, some 0, some 200, some "SINGLE"⟩ =
      Except.ok (propsW.filter (specSatisfies ⟨none, some 0, some 200, some "SINGLE"⟩)) ∧
    propsW.filter (specSatisfies ⟨none, some 0, some 200, some "SINGLE"⟩) =
      [⟨1, 10, "A", 100, "Kigali City", "SINGLE"⟩] :=
  ⟨(c3_search_conjunctive_filters propsW ⟨some "kigali", none, none, none⟩).1
      "kigali" rfl (by decide),
   (c3_search_conjunctive_filters propsW ⟨none, some 0, some 200, some "SINGLE"⟩).2.1
      (by decide) (by decide),
   by decide⟩

/-! ### C1: availability replacement is all-or-nothing -/

/-- Claim C1: a `PUT /properties/:id/availability` call either leaves the
stored calendar exactly as it was (failure) or replaces it with the supplied
set (success), never a mix.  In the program every call fails: the route's
gate `authorizeRoles('landlord')` matches no stored role, so the middleware
answers 403 with the store untouched and the calendar still exactly `E`; the
non-transactional delete-then-insert behind the gate is unreachable, so no
mixed state is reachable either. -/
theorem c1_availability_all_or_nothing (st : ListingState) (caller : AuthedUser)
    (id : Nat) (entries : List AvailInput) (h : storedRole caller.role = true) :
    putAvailability st caller id entries = (403, st) ∧
    ((putAvailability st caller id entries).2.availability = st.availability ∨
      (putAvailability st caller id entries).2.availability
        = entries.map (fun e => AvailRow.mk id e.date e.isAvailable)) := by
  have hgate := stored_gate_landlord caller.role h
  have hmain : putAvailability st caller id entries = (403, st) := by
    unfold putAvailability
    simp [hgate]
  exact ⟨hmain, Or.inl (by rw [hmain])⟩

/-- Witness for C1: the owning landlord (stored role `LANDLORD`) replaces the
calendar with a degenerate set that would violate the unique key; the
request is refused at the role gate and the calendar is exactly unchanged. -/
theorem c1_availability_all_or_nothing_witness :
    putAvailability stC1 ⟨10, "LANDLORD"⟩ 1 entriesC1 = (403, stC1) ∧
    ((putAvailability stC1 ⟨10, "LANDLORD"⟩ 1 entriesC1).2.availability = stC1.availability ∨
      (putAvailability stC1 ⟨10, "LANDLORD"⟩ 1 entriesC1).2.availability
        = entriesC1.map (fun e => AvailRow.mk 1 e.date e.isAvailable)) :=
  c1_availability_all_or_nothing stC1 ⟨10, "LANDLORD"⟩ 1 entriesC1 (by decide)

/-! ### C7: non-owner property mutation is forbidden and effect-free -/

/-- Claim C7: an authenticated landlord (stored role `LANDLORD`) who is not
the stored owner of property `id` — or targets a property that does not
exist — gets a 403 from both `PUT /properties/:id` and
`DELETE /properties/:id`, with the store unchanged, and neither endpoint's
response distinguishes the two cases.  The PUT passes its
`authorizeRoles('LANDLORD')` gate and fails the ownership check with the one
shared body `forbiddenMsg` for missing and non-owned properties alike; the
DELETE is gated by `authorizeRoles('landlord')`, which matches no stored
role, so it answers the middleware's 403 with `insufficientPermsMsg` —
identical for every property, owned, non-owned or absent. -/
theorem c7_nonowner_update_delete_forbidden (st : ListingState) (caller : AuthedUser)
    (id : Nat) (patch : PropPatch) (hrole : caller.role = "LANDLORD")
    (hown : Option.all (fun p => p.landlordId != caller.id) (propFind st.props id) = true) :
    updateProperty st caller id patch = ((403, forbiddenMsg), st) ∧
    deleteProperty st caller id = ((403, insufficientPermsMsg), st) := by
  constructor
  · have hgate : authorizeRoles ["LANDLORD"] caller.role = true := by
      rw [hrole]
      decide
    unfold updateProperty
    simp only [hgate, Bool.not_true, Bool.false_eq_true, if_false]
    cases hp : propFind st.props id with
    | none => rfl
    | some p =>
      rw [hp] at hown
      simp only [Option.all_some] at hown
      simp [hown]
  · have hgate : authorizeRoles ["landlord"] caller.role = false := by
      rw [hrole]
      decide
    unfold deleteProperty
    simp [hgate]

/-- Witness for C7: landlord 11 (stored role `LANDLORD`) is not the owner
(10) of property 1; the update answers the handler's 403 and the delete the
middleware's 403, both leaving the store intact. -/
theorem c7_nonowner_update_delete_forbidden_witness :
    updateProperty ⟨[⟨1, 10, "Flat", 100, "Kigali", "SINGLE"⟩], []⟩ ⟨11, "LANDLORD"⟩ 1
        ⟨some "X", none, none, none⟩ =
      ((403, forbiddenMsg), ⟨[⟨1, 10, "Flat", 100, "Kigali", "SINGLE"⟩], []⟩) ∧
    deleteProperty ⟨[⟨1, 10, "Flat", 100, "Kigali", "SINGLE"⟩], []⟩ ⟨11, "LANDLORD"⟩ 1 =
      ((403, insufficientPermsMsg), ⟨[⟨1, 10, "Flat", 100, "Kigali", "SINGLE"⟩], []⟩) :=
  c7_nonowner_update_delete_forbidden
    ⟨[⟨1, 10, "Flat", 100, "Kigali", "SINGLE"⟩], []⟩ ⟨11, "LANDLORD"⟩ 1
    ⟨some "X", none, none, none⟩ rfl (by decide)

/-! ### C2: conversation creation -/

/-- Claim C2 (refuted in its creation half): a stored student (id 1) sends a
first message to a stored landlord (id 2) while no conversation exists for
the pair; the program answers 400 — the pairing comparison
`req.user.role === 'student'` can never match the stored `STUDENT` — and the
state is returned unchanged: no conversation is created, not the exactly-one
the claim promises.  (Pair uniqueness itself is trivially preserved, since
the conversation table is never written.) -/
theorem c2_valid_send_creates_no_conversation :
    convFind stChatW.convs 1 2 = none ∧
    sendMessage stChatW ⟨1, "STUDENT"⟩ 2 "hi" 5 = (400, stChatW) ∧
    (sendMessage stChatW ⟨1, "STUDENT"⟩ 2 "hi" 5).2.convs = [] := by
  decide

/-! ### C4: message role pairing -/

/-- Claim C4: `POST /chat/messages` succeeds only when the stored roles pair
one student with one landlord (a 201 would imply such a pairing), and any
other role pairing is answered 400 with no message or conversation created.
In the program the conclusion holds in the strongest form: every send from a
stored-role identity — valid pairing included — is answered 400 with the
store returned untouched, because the pairing comparisons use the lower-case
literals.  The only role information consulted is the token's role (a copy
of the stored role) and the recipient's stored row, looked up by id; the
request body carries no role claim. -/
theorem c4_message_role_pairing (st : ChatState) (caller : AuthedUser)
    (recipientId : Nat) (content : String) (now : Int) (recip : AuthedUser)
    (hrole : storedRole caller.role = true)
    (_hfind : userFind st recipientId = some recip) :
    ((sendMessage st caller recipientId content now).1 = 201 →
      (caller.role = "STUDENT" ∧ recip.role = "LANDLORD") ∨
      (caller.role = "LANDLORD" ∧ recip.role = "STUDENT")) ∧
    sendMessage st caller recipientId content now = (400, st) := by
  have hsend := sendMessage_stored_400 st caller recipientId content now hrole
  refine ⟨?_, hsend⟩
  intro h201
  rw [hsend] at h201
  simp at h201

/-- Witness for C4: a stored student messaging a stored landlord — the
pairing the claim singles out as the only possibly-successful one — is
answered 400 with the store unchanged. -/
theorem c4_message_role_pairing_witness :
    sendMessage stChatW ⟨1, "STUDENT"⟩ 2 "hello" 5 = (400, stChatW) :=
  (c4_message_role_pairing stChatW ⟨1, "STUDENT"⟩ 2 "hello" 5 ⟨2, "LANDLORD"⟩
    (by decide) (by decide)).2

/-! ### C9: retrieval ordering and latest-message previews -/

/-- Claim C9: `GET /chat/messages` returns the conversation's messages in
chronological ascending order of creation time (a sorted permutation of the
stored rows of that conversation), and `GET /chat/conversations` lists the
requester's conversations in descending last-activity order, attaching
exactly one message — the latest — as preview to every conversation that has
messages (in the data model's lifecycle a conversation exists only together
with its messages, being created on the first exchange; a message-less
conversation row would carry an empty preview, and at most one message is
attached in every case). -/
theorem c9_message_order_and_latest_preview (st : ChatState) (uid cid : Nat) :
    (∀ res, getMessages st uid cid = Except.ok res →
      List.Sorted msgLe res ∧
      res.Perm (st.msgs.filter (fun m => m.conversationId == cid))) ∧
    List.Sorted (fun u v : ConvView => convGe u.conv v.conv) (getConversations st uid) ∧
    (∀ v ∈ getConversations st uid,
      v.preview.length ≤ 1 ∧
      (∀ m ∈ v.preview, m ∈ st.msgs ∧ m.conversationId = v.conv.id ∧
        ∀ m2 ∈ st.msgs, m2.conversationId = v.conv.id → m2.createdAt ≤ m.createdAt) ∧
      (st.msgs.filter (fun m => m.conversationId == v.conv.id) ≠ [] →
        v.preview.length = 1)) := by
  refine ⟨?_, ?_, ?_⟩
  · intro res h
    unfold getMessages at h
    split at h
    · exact absurd h (by simp)
    · split at h
      · exact absurd h (by simp)
      · split at h
        · exact absurd h (by simp)
        · injection h with h'
          subst h'
          exact ⟨List.sorted_insertionSort msgLe _, List.perm_insertionSort msgLe _⟩
  · unfold getConversations
    exact List.Pairwise.map _ (fun a b hab => hab)
      (List.sorted_insertionSort convGe
        (st.convs.filter (fun c => c.studentId == uid || c.landlordId == uid)))
  · intro v hv
    unfold getConversations at hv
    rcases List.mem_map.mp hv with ⟨c, hc, rfl⟩
    dsimp only
    refine ⟨?_, ?_, ?_⟩
    · rw [List.length_take]
      exact Nat.min_le_left 1 _
    · intro m hm
      have hm' : m ∈ List.insertionSort msgGe
          (st.msgs.filter (fun x => x.conversationId == c.id)) :=
        List.mem_of_mem_take hm
      have hmfilter : m ∈ st.msgs.filter (fun x => x.conversationId == c.id) :=
        ((List.perm_insertionSort msgGe _).mem_iff).mp hm'
      have hmem := List.mem_filter.mp hmfilter
      refine ⟨hmem.1, by simpa using hmem.2, ?_⟩
      intro m2 hm2 hcid
      cases hsort : List.insertionSort msgGe
          (st.msgs.filter (fun x => x.conversationId == c.id)) with
      | nil =>
        rw [hsort] at hm
        simp at hm
      | cons a tl =>
        rw [hsort] at hm
        have htake : List.take 1 (a :: tl) = [a] := rfl
        rw [htake] at hm
        have hma : m = a := List.mem_singleton.mp hm
        have hm2sorted : m2 ∈ a :: tl := by
          rw [← hsort]
          exact ((List.perm_insertionSort msgGe _).mem_iff).mpr
            (List.mem_filter.mpr ⟨hm2, by simpa using hcid⟩)
        have hsorted : List.Sorted msgGe (a :: tl) :=
          hsort ▸ List.sorted_insertionSort msgGe _
        rw [hma]
        rcases List.mem_cons.mp hm2sorted with rfl | hmem2
        · exact le_refl _
        · exact (List.sorted_cons.mp hsorted).1 m2 hmem2
    · intro hne
      cases hsort : List.insertionSort msgGe
          (st.msgs.filter (fun x => x.conversationId == c.id)) with
      | nil =>
        exfalso
        have hP := List.perm_insertionSort msgGe
          (st.msgs.filter (fun x => x.conversationId == c.id))
        rw [hsort] at hP
        exact hne (List.perm_nil.mp hP.symm)
      | cons a tl => rfl

/-- Witness for C9 on a concrete store: the conversation's messages come
back ascending, as a permutation of the stored rows, and the conversation's
preview holds exactly its latest message. -/
theorem c9_message_order_and_latest_preview_witness :
    List.Sorted msgLe resMsgW ∧
    resMsgW.Perm (stMsgW.msgs.filter (fun m => m.conversationId == 7)) ∧
    viewMsgW.preview.length ≤ 1 ∧
    viewMsgW.preview.length = 1 :=
  ⟨((c9_message_order_and_latest_preview stMsgW 1 7).1 resMsgW rfl).1,
   ((c9_message_order_and_latest_preview stMsgW 1 7).1 resMsgW rfl).2,
   ((c9_message_order_and_latest_preview stMsgW 1 7).2.2 viewMsgW (by decide)).1,
   ((c9_message_order_and_latest_preview stMsgW 1 7).2.2 viewMsgW (by decide)).2.2
     (by decide)⟩

/-! ### C5: saved-property bookmarking -/

/-- Claim C5 (refuted): a stored student's first save of an existing property
does not answer 201 with one stored row, and the retry does not answer 409 —
both attempts are answered 403 by `authorizeRoles('student')`, whose
lower-case literal matches no stored role, with zero rows ever stored.  (The
`savedProperties` delegate the handler would then dereference does not exist
on the generated client either, as the final conjunct records, so even a
caller passing the gate could never reach 201/409.) -/
theorem c5_saved_property_create_always_fails :
    savePropertyPost stC5 ⟨2, "STUDENT"⟩ 1 = (403, stC5) ∧
    savePropertyPost (savePropertyPost stC5 ⟨2, "STUDENT"⟩ 1).2 ⟨2, "STUDENT"⟩ 1
      = (403, stC5) ∧
    (savePropertyPost stC5 ⟨2, "STUDENT"⟩ 1).2.saved.length = 0 ∧
    (prismaModelDelegates.contains savedRouteDelegate) = false := by
  decide

/-! ### C6: review creation is blocked -/

/-- Claim C6: review creation fails when the reviewer owns the target
property, and fails when a review by the same student for that property
already exists, and in both cases no review row is added.  In the program
both scenarios fail with 403 and the whole store unchanged, because the
route's gate `authorizeRoles('student')` rejects every stored-role caller
before the handler; the handler's own self-review (403) and duplicate (409)
checks, modelled behind the gate, are unreachable. -/
theorem c6_review_self_and_duplicate_blocked (st : ReviewState) (caller : AuthedUser)
    (propertyId landlordId rating : Nat) (comment : Option String)
    (hrole : storedRole caller.role = true) :
    (∀ p, propFind st.props propertyId = some p → p.landlordId = caller.id →
      createReview st caller propertyId landlordId rating comment = (403, st)) ∧
    ((st.reviews.any (fun r => r.studentId == caller.id && r.propertyId == propertyId)) = true →
      createReview st caller propertyId landlordId rating comment = (403, st)) := by
  have hmain := createReview_stored_403 st caller propertyId landlordId rating comment hrole
  exact ⟨fun _ _ _ => hmain, fun _ => hmain⟩

/-- Witness for C6: stored student 5 reviewing the listing they own is
answered 403 with the store unchanged. -/
theorem c6_review_self_and_duplicate_blocked_witness :
    createReview stRevW ⟨5, "STUDENT"⟩ 1 5 4 none = (403, stRevW) :=
  (c6_review_self_and_duplicate_blocked stRevW ⟨5, "STUDENT"⟩ 1 5 4 none
    (by decide)).1 ⟨1, 5, "Flat", 100, "Kigali", "SINGLE"⟩ (by decide) (by decide)

/-! ### C10: body-supplied landlordId -/

/-- Counterexample to C10: no review-creation request is ever accepted — a
stored-role caller is answered 403 by the role gate, and any caller passing
the gate would still be stopped at the insert, whose data carries the
`landlordId` field unknown to `model Review` — so in particular no accepted
request with a foreign `landlordId` exists. -/
theorem c10_counterexample : ¬ C10Claim := by
  intro h
  obtain ⟨st, caller, pid, lid, rating, comment, p, -, -, h201⟩ := h.2
  exact (createReview_rejects st caller pid lid rating comment).1 h201

/-- Claim C10, amended: the route's create data does carry the body-supplied
`landlordId` unchecked against the property's owner, but no review-creation
request is ever accepted: the `authorizeRoles('student')` gate answers 403
for every stored-role caller, and the insert itself would be rejected for
the unknown `landlordId` column; the review store is unchanged by every
request, so no stored review with any `landlordId` — foreign or not —
exists. -/
theorem c10_review_create_never_accepts (st : ReviewState) (caller : AuthedUser)
    (propertyId landlordId rating : Nat) (comment : Option String) :
    (createReview st caller propertyId landlordId rating comment).1 ≠ 201 ∧
    (createReview st caller propertyId landlordId rating comment).2 = st :=
  createReview_rejects st caller propertyId landlordId rating comment

/-! ### C8: viewing-request status transition -/

/-- Claim C8 (refuted in its reachability part): the pending → approved or
rejected transition never succeeds for anyone — the route's gate
`authorizeRoles('landlord')` matches no stored role, so the owning landlord
(stored role `LANDLORD`) is answered 403 with the status still pending for
both accepted body values and for the enum's own spelling, and so is a
non-owning landlord.  The last two conjuncts record the independent slip:
the only body values the validator accepts, `confirmed` and `declined`, are
not members of the schema enum, so even behind the gate the update could
never store a legal status. -/
theorem c8_transition_never_succeeds :
    putViewingRequest stC8 ⟨10, "LANDLORD"⟩ 5 "confirmed" = (403, stC8) ∧
    putViewingRequest stC8 ⟨10, "LANDLORD"⟩ 5 "declined" = (403, stC8) ∧
    putViewingRequest stC8 ⟨10, "LANDLORD"⟩ 5 "APPROVED" = (403, stC8) ∧
    putViewingRequest stC8 ⟨11, "LANDLORD"⟩ 5 "confirmed" = (403, stC8) ∧
    (stC8.reqs.map (fun r => r.status)) = [ViewingStatus.pending] ∧
    parseViewingStatus "confirmed" = none ∧
    parseViewingStatus "declined" = none := by
  decide

end AccommodationsApp
